import Mathlib

/-!
Verification of the A2A protocol core of the Online-Boutique-with-AI repository.

The definitions below are a shallow embedding of
`ai-agents/ai_agents/a2a/protocol.py` (message envelope, protocol handler
state machine) and of the workflow orchestrator in
`ai-agents/ai_agents/a2a/discovery.py`.  Python dictionaries are modelled as
association lists with unique keys (dict insertion order is list order),
`datetime` values as integers (seconds), and `asyncio` futures as an explicit
`Fut` type.  Observation logs (`sent_log`, `wire_log`, `resolutions`,
`invoked`, `attempted`) record the side effects (calls into the send path,
channel writes, `Future.set_result`, handler invocation, step attempts) that
the Python code performs imperatively.
-/

namespace Boutique

/-! ### JSON-ish payload values

`payload` fields in the source are schema-free Python dicts.  `PValue` covers
the value shapes the protocol code manipulates. -/

inductive PValue where
  | pstr (s : String)
  | pint (n : Int)
  | pbool (b : Bool)
  | pnone
  | plist (l : List PValue)
  | pdict (d : List (String × PValue))

abbrev Payload := List (String × PValue)

/-- Association-list lookup, first match: Python `d[k]` / `d.get(k)`. -/
def lookupKey {κ α : Type} [DecidableEq κ] : List (κ × α) → κ → Option α
  | [], _ => none
  | (k1, v) :: rest, k => if k1 = k then some v else lookupKey rest k

/-- Python `d[k] = v`: replace in place if the key exists, else append. -/
def upsertKey {κ α : Type} [DecidableEq κ] : List (κ × α) → κ → α → List (κ × α)
  | [], k, v => [(k, v)]
  | (k1, v1) :: rest, k, v =>
      if k1 = k then (k, v) :: rest else (k1, v1) :: upsertKey rest k v

/-- Python `d.pop(k)` / `del d[k]` (keys are unique in a dict). -/
def eraseKey {κ α : Type} [DecidableEq κ] : List (κ × α) → κ → List (κ × α)
  | [], _ => []
  | (k1, v1) :: rest, k =>
      if k1 = k then eraseKey rest k else (k1, v1) :: eraseKey rest k

/-- Python `payload.get(k)`. -/
def payloadGet (p : Payload) (k : String) : Option PValue :=
  lookupKey p k

/-- Python `str(x)` for the value of `payload.get("type")` as used in the
f-string `f"No handler for request type: {request_type}"`.  The scalar cases
are exact.  In the protocol handler the composite placeholders are
unreachable: an unhashable (list/dict) value raises TypeError at the
handler-table membership test before any f-string (see
`lookupRequestHandler`).  They remain only in the workflow-orchestrator
error text, whose content no statement here inspects (at such inputs the
source raises TypeError inside `find_best_agent` instead, likewise failing
the step with one error record). -/
def pyStrOf : Option PValue → String
  | none => "None"
  | some (.pstr s) => s
  | some (.pint n) => toString n
  | some (.pbool true) => "True"
  | some (.pbool false) => "False"
  | some .pnone => "None"
  | some (.plist _) => "<list>"
  | some (.pdict _) => "<dict>"

/-- Python len() on the value stored under "steps" (TypeError = `none`). -/
def pyLen : PValue → Option Nat
  | .pstr s => some s.length
  | .plist l => some l.length
  | .pdict d => some d.length
  | _ => none

/-- Python truthiness coercion `payload or {}` applied to a dict. -/
def pyOrEmpty (p : Payload) : Payload :=
  if p.isEmpty then [] else p

/-! ### Enums (`MessageType`, `MessagePriority`, `AgentStatus`) -/

inductive MessageType where
  | request | response | notification | heartbeat | discovery | error | workflow
  deriving DecidableEq

/-- `MessageType.value`. -/
def kindValue : MessageType → String
  | .request => "request"
  | .response => "response"
  | .notification => "notification"
  | .heartbeat => "heartbeat"
  | .discovery => "discovery"
  | .error => "error"
  | .workflow => "workflow"

/-- `MessageType(s)`: `none` models the `ValueError` on an unknown value. -/
def parseMessageType : String → Option MessageType
  | "request" => some .request
  | "response" => some .response
  | "notification" => some .notification
  | "heartbeat" => some .heartbeat
  | "discovery" => some .discovery
  | "error" => some .error
  | "workflow" => some .workflow
  | _ => none

inductive MessagePriority where
  | low | medium | high | critical
  deriving DecidableEq

def priorityValue : MessagePriority → String
  | .low => "low"
  | .medium => "medium"
  | .high => "high"
  | .critical => "critical"

def parsePriority : String → Option MessagePriority
  | "low" => some .low
  | "medium" => some .medium
  | "high" => some .high
  | "critical" => some .critical
  | _ => none

inductive AgentStatus where
  | online | offline | busy | error
  deriving DecidableEq

def statusValue : AgentStatus → String
  | .online => "online"
  | .offline => "offline"
  | .busy => "busy"
  | .error => "error"

/-! ### `A2AMessage` and its wire dictionary -/

structure A2AMessage where
  id : String
  message_type : MessageType
  from_agent : String
  to_agent : Option String
  payload : Payload
  priority : MessagePriority
  correlation_id : Option String
  workflow_id : Option String
  timestamp : String
  ttl : Nat

/-- The flat JSON object produced by `to_dict` / consumed by `from_dict`.
`none` on an outer `Option` means the key is absent from the map; for the
nullable keys (`to`, `correlation_id`, `workflow_id`) the inner `Option`
is the JSON null.  `typ` is the "type" key, `fromA` the "from" key and
`toA` the "to" key. -/
structure WireDict where
  id : Option String
  typ : Option String
  fromA : Option String
  toA : Option (Option String)
  payload : Option Payload
  priority : Option String
  correlation_id : Option (Option String)
  workflow_id : Option (Option String)
  timestamp : Option String
  ttl : Option Nat

/-- `A2AMessage.to_dict`: every key is written (optional fields as null). -/
def A2AMessage.to_dict (m : A2AMessage) : WireDict :=
  { id := some m.id
    typ := some (kindValue m.message_type)
    fromA := some m.from_agent
    toA := some m.to_agent
    payload := some m.payload
    priority := some (priorityValue m.priority)
    correlation_id := some m.correlation_id
    workflow_id := some m.workflow_id
    timestamp := some m.timestamp
    ttl := some m.ttl }

/-- `A2AMessage.from_dict`.  Failure order follows Python evaluation order:
`MessageType(data["type"])`, `data["from"]`, `MessagePriority(
data.get("priority", "medium"))`, then `data["id"]` and `data["timestamp"]`.
`data.get` calls (`to`, `payload`, `correlation_id`, `workflow_id`, `ttl`)
cannot fail.  The constructor applies `payload or {}` and `ttl` default 300. -/
def A2AMessage.from_dict (d : WireDict) : Except String A2AMessage :=
  match d.typ with
  | none => .error "KeyError: type"
  | some t =>
    match parseMessageType t with
    | none => .error ("ValueError: " ++ t ++ " is not a valid MessageType")
    | some mt =>
      match d.fromA with
      | none => .error "KeyError: from"
      | some f =>
        match parsePriority (match d.priority with | none => "medium" | some p => p) with
        | none => .error "ValueError: not a valid MessagePriority"
        | some pr =>
          match d.id with
          | none => .error "KeyError: id"
          | some i =>
            match d.timestamp with
            | none => .error "KeyError: timestamp"
            | some ts =>
              .ok { id := i
                    message_type := mt
                    from_agent := f
                    to_agent := Option.join d.toA
                    payload := pyOrEmpty (d.payload.getD [])
                    priority := pr
                    correlation_id := Option.join d.correlation_id
                    workflow_id := Option.join d.workflow_id
                    timestamp := ts
                    ttl := d.ttl.getD 300 }

/-- Does a deserialization attempt fail (raise)? -/
def isErr : Except String A2AMessage → Bool
  | .error _ => true
  | .ok _ => false

/-! ### `AgentInfo` (registry entry) and the protocol handler state

`datetime.now()` values are modelled as integers (`Int`): `last_heartbeat`
holds the instant of the last heartbeat, and age comparisons
`current_time - last_heartbeat > timedelta(seconds=t)` become `now - lhb > t`. -/

structure AgentInfo where
  agent_id : String
  name : String
  capabilities : PValue
  endpoint : String
  status : AgentStatus
  last_heartbeat : Int
  message_count : Nat
  error_count : Nat

/-- `AgentInfo.to_dict` as a payload value (registry snapshot sent by the
discovery "query" branch). -/
def AgentInfo.to_dictP (i : AgentInfo) : PValue :=
  .pdict [("agent_id", .pstr i.agent_id), ("name", .pstr i.name),
          ("capabilities", i.capabilities), ("endpoint", .pstr i.endpoint),
          ("status", .pstr (statusValue i.status)),
          ("last_heartbeat", .pint i.last_heartbeat),
          ("message_count", .pint (Int.ofNat i.message_count)),
          ("error_count", .pint (Int.ofNat i.error_count))]

/-- An `asyncio.Future` held in `pending_requests`. -/
inductive Fut where
  | unresolved
  | resolved (m : A2AMessage)
  | cancelled

/-- `future.done()`. -/
def Fut.done : Fut → Bool
  | .unresolved => false
  | _ => true

/-- One entry of `active_workflows` in the protocol handler
(`_handle_workflow`).  `steps` and `context` hold the raw payload values
(`payload.get("steps", [])`, `payload.get("context", {})`). -/
structure PWf where
  initiator : String
  steps : PValue
  current_step : Nat
  status : String
  start_time : String
  end_time : Option String
  context : PValue

/-- A registered payload-type handler: `payload -> result`, `Except` for a
raised exception (`.error` carries `str(e)`). -/
abbrev Handler := Payload → Except String PValue

/-- The mutable state of one `A2AProtocolHandler`.

`connections` maps an agent id to its open channel; the `Bool` records
whether a write on that channel succeeds (models the `websocket.send`
outcome).  `sent_log` records every envelope handed to `_send_message`,
`wire_log` those actually written to a channel, `resolutions` every
`future.set_result(message)` call, and `invoked` every registered handler
that was called — observation logs for the effects the Python code performs
imperatively. -/
structure ProtState where
  agent_id : String
  agent_name : String
  agents : List (String × AgentInfo)
  connections : List (String × Bool)
  message_handlers : List (String × Handler)
  pending_requests : List (String × Fut)
  message_queue : List A2AMessage
  active_workflows : List (Option String × PWf)
  stats_sent : Nat
  stats_received : Nat
  stats_errors : Nat
  sent_log : List A2AMessage
  wire_log : List A2AMessage
  resolutions : List (String × A2AMessage)
  invoked : List String

/-- `_send_message`: increment `messages_sent`; if the target has an open
channel, write to it (a raised write failure is caught: log + `errors += 1`,
the envelope is dropped); otherwise put the envelope on `message_queue`.
`to_agent = None` is not a dict key, so it also takes the queue branch. -/
def sendMessage (s : ProtState) (m : A2AMessage) : ProtState :=
  let s := { s with stats_sent := s.stats_sent + 1, sent_log := s.sent_log ++ [m] }
  match m.to_agent with
  | some a =>
      match lookupKey s.connections a with
      | some true => { s with wire_log := s.wire_log ++ [m] }
      | some false => { s with stats_errors := s.stats_errors + 1 }
      | none => { s with message_queue := s.message_queue ++ [m] }
  | none => { s with message_queue := s.message_queue ++ [m] }

/-- `_handle_discovery`.  `freshId`/`nowS` are the uuid and timestamp of the
constructed response; `nowT` the current time for the new `AgentInfo`.
Non-string `name`/`endpoint` payload values collapse to their defaults
(no settled claim depends on them). -/
def handleDiscovery (s : ProtState) (m : A2AMessage) (freshId : String)
    (nowT : Int) (nowS : String) : ProtState :=
  match payloadGet m.payload "action" with
  | some (.pstr "register") =>
      let info : AgentInfo :=
        { agent_id := m.from_agent
          name := match payloadGet m.payload "name" with
                  | some (.pstr n) => n
                  | _ => m.from_agent
          capabilities := (payloadGet m.payload "capabilities").getD (.plist [])
          endpoint := match payloadGet m.payload "endpoint" with
                      | some (.pstr e) => e
                      | _ => ""
          status := .online
          last_heartbeat := nowT
          message_count := 0
          error_count := 0 }
      let s := { s with agents := upsertKey s.agents m.from_agent info }
      sendMessage s
        { id := freshId, message_type := .response, from_agent := s.agent_id,
          to_agent := some m.from_agent,
          payload := [("status", .pstr "registered"),
                      ("agents", .plist (s.agents.map (fun p => .pstr p.1)))],
          priority := .medium, correlation_id := some m.id, workflow_id := none,
          timestamp := nowS, ttl := 300 }
  | some (.pstr "query") =>
      sendMessage s
        { id := freshId, message_type := .response, from_agent := s.agent_id,
          to_agent := some m.from_agent,
          payload := [("agents",
            .pdict (s.agents.map (fun p => (p.1, AgentInfo.to_dictP p.2))))],
          priority := .medium, correlation_id := some m.id, workflow_id := none,
          timestamp := nowS, ttl := 300 }
  | _ => s

/-- `_handle_heartbeat`: refresh `last_heartbeat` and set status Online for a
registered sender; unknown senders are ignored. -/
def handleHeartbeat (s : ProtState) (m : A2AMessage) (nowT : Int) : ProtState :=
  if (lookupKey s.agents m.from_agent).isSome then
    { s with agents := s.agents.map (fun p =>
        if p.1 = m.from_agent then
          (p.1, { p.2 with last_heartbeat := nowT, status := .online })
        else p) }
  else s

/-- `request_type in self.message_handlers` followed by the indexed lookup:
a string key may match a registered handler; None, an int or a bool are
hashable but never equal a string dict key (membership test false); a list
or dict is unhashable, so the membership test itself raises TypeError
(`.error ()`), before any reply can be built. -/
def lookupRequestHandler (hs : List (String × Handler))
    (request_type : Option PValue) : Except Unit (Option (String × Handler)) :=
  match request_type with
  | some (.pstr t) => .ok ((lookupKey hs t).map (fun h => (t, h)))
  | some (.plist _) => .error ()
  | some (.pdict _) => .error ()
  | _ => .ok none

/-- `_handle_request`: dispatch on `payload["type"]`; reply with a Response
on success, an Error envelope carrying `str(e)` on a handler exception, or
the "No handler for request type" Error envelope when no handler is
registered.  The returned `Bool` is true when the membership test raises
TypeError (unhashable request type); that raise is outside the local
try/except and is caught by `_process_incoming_message`, which then bumps
the error counter — no reply is sent. -/
def handleRequest (s : ProtState) (m : A2AMessage) (freshId : String)
    (nowS : String) : ProtState × Bool :=
  let request_type := payloadGet m.payload "type"
  match lookupRequestHandler s.message_handlers request_type with
  | .error _ => (s, true)
  | .ok (some (t, h)) =>
      let s := { s with invoked := s.invoked ++ [t] }
      (match h m.payload with
       | .ok result =>
          sendMessage s
            { id := freshId, message_type := .response, from_agent := s.agent_id,
              to_agent := some m.from_agent,
              payload := [("result", result), ("status", .pstr "success")],
              priority := .medium, correlation_id := some m.id,
              workflow_id := none, timestamp := nowS, ttl := 300 }
       | .error e =>
          sendMessage s
            { id := freshId, message_type := .error, from_agent := s.agent_id,
              to_agent := some m.from_agent,
              payload := [("error", .pstr e), ("status", .pstr "error")],
              priority := .medium, correlation_id := some m.id,
              workflow_id := none, timestamp := nowS, ttl := 300 },
       false)
  | .ok none =>
      (sendMessage s
        { id := freshId, message_type := .error, from_agent := s.agent_id,
          to_agent := some m.from_agent,
          payload := [("error", .pstr ("No handler for request type: "
                        ++ pyStrOf request_type))],
          priority := .medium, correlation_id := some m.id,
          workflow_id := none, timestamp := nowS, ttl := 300 },
       false)

/-- `_handle_response`: `pending_requests.pop(correlation_id)` when present;
`set_result(message)` only if the future is not already done.  A missing or
`None` correlation id is an orphan and is dropped. -/
def handleResponse (s : ProtState) (m : A2AMessage) : ProtState :=
  match m.correlation_id with
  | none => s
  | some cid =>
      match lookupKey s.pending_requests cid with
      | none => s
      | some fut =>
          let s := { s with pending_requests := eraseKey s.pending_requests cid }
          match fut with
          | .unresolved => { s with resolutions := s.resolutions ++ [(cid, m)] }
          | _ => s

/-- `_handle_notification`: invoke the registered handler if any; the result
and any handler exception are discarded (logged only).  As in
`_handle_request`, an unhashable notification type makes the membership
test itself raise (returned `Bool` true), caught by the dispatcher. -/
def handleNotification (s : ProtState) (m : A2AMessage) : ProtState × Bool :=
  match lookupRequestHandler s.message_handlers (payloadGet m.payload "type") with
  | .error _ => (s, true)
  | .ok (some (t, h)) =>
      let s := { s with invoked := s.invoked ++ [t] }
      let _ := h m.payload
      (s, false)
  | .ok none => (s, false)

/-- `_handle_workflow`.  The returned `Bool` is true when the Python code
raises (the `len()` call on a non-sized `steps` value after the
`current_step` increment); the raise is caught by
`_process_incoming_message`, which then bumps the error counter. -/
def handleWorkflow (s : ProtState) (m : A2AMessage) (nowS : String) :
    ProtState × Bool :=
  match payloadGet m.payload "action" with
  | some (.pstr "start") =>
      let wf : PWf :=
        { initiator := m.from_agent
          steps := (payloadGet m.payload "steps").getD (.plist [])
          current_step := 0
          status := "running"
          start_time := nowS
          end_time := none
          context := (payloadGet m.payload "context").getD (.pdict []) }
      ({ s with active_workflows := upsertKey s.active_workflows m.workflow_id wf },
       false)
  | some (.pstr "step_complete") =>
      (match lookupKey s.active_workflows m.workflow_id with
       | none => (s, false)
       | some wf =>
           let wf1 := { wf with current_step := wf.current_step + 1 }
           match pyLen wf1.steps with
           | none =>
               ({ s with active_workflows :=
                    upsertKey s.active_workflows m.workflow_id wf1 }, true)
           | some n =>
               let wf2 := if n ≤ wf1.current_step then
                            { wf1 with status := "completed", end_time := some nowS }
                          else wf1
               ({ s with active_workflows :=
                    upsertKey s.active_workflows m.workflow_id wf2 }, false))
  | _ => (s, false)

/-- `_process_incoming_message`: bump `messages_received`, then dispatch on
`message_type`.  There is no branch for `MessageType.ERROR`, so an
Error-kind envelope falls through to the logged "Unknown message type"
warning and changes nothing else.  An exception escaping a branch (the
unhashable-type raise in the request and notification branches, the `len()`
raise in the workflow branch) is caught here and bumps `errors`. -/
def processIncomingMessage (s : ProtState) (m : A2AMessage) (freshId : String)
    (nowT : Int) (nowS : String) : ProtState :=
  let s := { s with stats_received := s.stats_received + 1 }
  match m.message_type with
  | .discovery => handleDiscovery s m freshId nowT nowS
  | .heartbeat => handleHeartbeat s m nowT
  | .request =>
      let sr := handleRequest s m freshId nowS
      if sr.2 then { sr.1 with stats_errors := sr.1.stats_errors + 1 } else sr.1
  | .response => handleResponse s m
  | .notification =>
      let sr := handleNotification s m
      if sr.2 then { sr.1 with stats_errors := sr.1.stats_errors + 1 } else sr.1
  | .workflow =>
      let sr := handleWorkflow s m nowS
      if sr.2 then { sr.1 with stats_errors := sr.1.stats_errors + 1 } else sr.1
  | .error => s

/-- Process a sequence of incoming envelopes, each with its own fresh uuid
and clock readings. -/
def processMany (s : ProtState) : List (A2AMessage × String × Int × String) → ProtState
  | [] => s
  | (m, f, nt, ns) :: rest => processMany (processIncomingMessage s m f nt ns) rest

/-- The registration phase of `send_request`: create the pending future under
the request id, then hand the envelope to the send path. -/
def sendRequestStart (s : ProtState) (m : A2AMessage) : ProtState :=
  sendMessage { s with pending_requests := upsertKey s.pending_requests m.id .unresolved } m

/-- Outcome of an awaited `send_request`. -/
inductive ReqOutcome where
  | timeoutErr
  | got (m : A2AMessage)

/-- The `except asyncio.TimeoutError` branch of `send_request`:
`pending_requests.pop(message.id, None)` then re-raise the timeout. -/
def sendRequestOnTimeout (s : ProtState) (reqId : String) : ProtState × ReqOutcome :=
  ({ s with pending_requests := eraseKey s.pending_requests reqId }, .timeoutErr)

/-- One pass of `_cleanup_loop`: mark every stale non-self agent Offline;
evict those stale beyond `3 × timeout` from the registry and the connection
map; sweep `pending_requests` entries whose future is already done. -/
def agentStale (selfId : String) (now t : Int) (p : String × AgentInfo) : Prop :=
  p.1 ≠ selfId ∧ now - p.2.last_heartbeat > t

instance (selfId : String) (now t : Int) (p : String × AgentInfo) :
    Decidable (agentStale selfId now t p) := by
  unfold agentStale; infer_instance

/-- The marking step of the first loop: a stale non-self entry goes Offline. -/
def markStale (selfId : String) (now t : Int) (p : String × AgentInfo) :
    String × AgentInfo :=
  if agentStale selfId now t p then
    (p.1, { p.2 with status := AgentStatus.offline })
  else p

/-- The ids the second loop deletes: collected as stale (first loop) and then
found stale beyond `3 * timeout` (ages are re-read from the registry, whose
`last_heartbeat` values the marking pass did not change). -/
def evictedIds (s : ProtState) (now t : Int) : List String :=
  (s.agents.filter (fun p =>
    decide (agentStale s.agent_id now t p ∧ now - p.2.last_heartbeat > 3 * t))).map
    Prod.fst

def cleanupPass (s : ProtState) (now t : Int) : ProtState :=
  { s with
    agents := (s.agents.map (markStale s.agent_id now t)).filter
      (fun p => decide (p.1 ∉ evictedIds s now t))
    connections := s.connections.filter
      (fun c => decide (c.1 ∉ evictedIds s now t))
    pending_requests := s.pending_requests.filter (fun q => ¬ q.2.done) }

/-! ### Service discovery and the workflow orchestrator (`discovery.py`) -/

structure ServiceEndpoint where
  agent_id : String
  name : String
  capabilities : List String
  endpoint : String
  health_check_url : String
  last_seen : Int
  status : String
  metadata : List (String × String)

/-- `ServiceRegistry`: `services` and the capability index (`Set[str]`
modelled as a list in iteration order). -/
structure ServiceRegistry where
  services : List (String × ServiceEndpoint)
  capability_index : List (String × List String)

/-- `get_services_by_capability`: for each indexed agent id still present in
`services`, keep it when healthy.  A non-string capability (including the
`None` from `step.get("capability")`) is not an index key, so yields `[]`. -/
def getServicesByCapability (r : ServiceRegistry) (cap : Option PValue) :
    List ServiceEndpoint :=
  match cap with
  | some (.pstr c) =>
      match lookupKey r.capability_index c with
      | none => []
      | some ids =>
          (ids.filterMap (fun a => lookupKey r.services a)).filter
            (fun sv => sv.status == "healthy")
  | _ => []

/-- Python `min(agents, key=lambda a: a.last_seen)`: first element wins ties. -/
def pyMinByLastSeen : List ServiceEndpoint → Option ServiceEndpoint
  | [] => none
  | x :: xs => some (xs.foldl (fun best a =>
      if a.last_seen < best.last_seen then a else best) x)

/-- `find_best_agent`: `None` when no healthy service offers the capability. -/
def findBestAgent (r : ServiceRegistry) (cap : Option PValue) :
    Option ServiceEndpoint :=
  pyMinByLastSeen (getServicesByCapability r cap)

/-- One record of the `steps_completed` log of a workflow. -/
structure StepRec where
  step_index : Nat
  agent_id : String
  completed_at : String

/-- One record of the `errors` log of a workflow. -/
structure ErrRec where
  step_index : Nat
  error : String
  timestamp : String

/-- One `active_workflows` entry of the `WorkflowOrchestrator`.  `attempted`
is an observation log of the step indices whose try-block was entered. -/
structure Wf where
  status : String
  current_step : Nat
  steps_completed : List StepRec
  errors : List ErrRec
  context : Payload
  start_time : String
  end_time : Option String
  attempted : List Nat

/-- `WorkflowOrchestrator._execute_workflow_step`, with the
`active_workflows[workflow_id]` indirection collapsed onto the single
workflow record it reads and mutates (the orchestrator re-reads
`definition["steps"]` unchanged on every recursion, so `steps` is a fixed
parameter; each step is the raw payload dict of the definition).  Past the
last index the workflow completes; otherwise resolve an agent via
`find_best_agent` — on success append a completion record, advance
`current_step` and recurse; on failure (`Exception(f"No agent found for
capability: ...")`) append an error record, set status failed and stop. -/
def execSteps (reg : ServiceRegistry) (steps : List Payload) (nowS : String)
    (k : Nat) (w : Wf) : Wf :=
  match hstep : steps.get? k with
  | none => { w with status := "completed", end_time := some nowS }
  | some step =>
    let w1 := { w with attempted := w.attempted ++ [k] }
    match findBestAgent reg (payloadGet step "capability") with
    | some agent =>
        execSteps reg steps nowS (k + 1)
          { w1 with
            steps_completed := w1.steps_completed ++
              [{ step_index := k, agent_id := agent.agent_id, completed_at := nowS }]
            current_step := k + 1 }
    | none =>
        { w1 with
          errors := w1.errors ++
            [{ step_index := k,
               error := "No agent found for capability: "
                 ++ pyStrOf (payloadGet step "capability")
               timestamp := nowS }]
          status := "failed" }
termination_by steps.length - k
decreasing_by
  obtain ⟨h, _⟩ := List.get?_eq_some.mp hstep
  simp_wf
  omega

/-- `start_workflow`: build the fresh workflow record and execute from step
index 0. -/
def startWorkflowRun (reg : ServiceRegistry) (steps : List Payload)
    (ctx : Payload) (nowS : String) : Wf :=
  execSteps reg steps nowS 0
    { status := "running", current_step := 0, steps_completed := [],
      errors := [], context := ctx, start_time := nowS, end_time := none,
      attempted := [] }

/-! ### Concrete states and envelopes used for counterexamples and witnesses -/

/-- A freshly constructed handler (all tables empty, counters zero). -/
def baseState (aid : String) : ProtState :=
  { agent_id := aid, agent_name := aid, agents := [], connections := [],
    message_handlers := [], pending_requests := [], message_queue := [],
    active_workflows := [], stats_sent := 0, stats_received := 0,
    stats_errors := 0, sent_log := [], wire_log := [], resolutions := [],
    invoked := [] }

def c1State : ProtState :=
  { baseState "selfA" with pending_requests := [("r1", Fut.unresolved)] }

/-- An Error-kind envelope whose correlation id matches the pending request. -/
def c1ErrMsg : A2AMessage :=
  { id := "e9", message_type := .error, from_agent := "bob",
    to_agent := some "selfA", payload := [("error", .pstr "boom")],
    priority := .medium, correlation_id := some "r1", workflow_id := none,
    timestamp := "t0", ttl := 300 }

/-- A Response-kind envelope with the same matching correlation id. -/
def c1RespMsg : A2AMessage := { c1ErrMsg with id := "e10", message_type := .response }

def c2Msg : A2AMessage :=
  { id := "m2", message_type := .workflow, from_agent := "alice",
    to_agent := some "bob", payload := [("k", PValue.pstr "v")],
    priority := .high, correlation_id := some "c7", workflow_id := none,
    timestamp := "t2", ttl := 7 }

def c2BadType : WireDict :=
  { id := some "x", typ := some "bogus", fromA := some "alice", toA := none,
    payload := none, priority := none, correlation_id := none,
    workflow_id := none, timestamp := some "t", ttl := none }

def c2BadPriority : WireDict := { c2BadType with typ := some "request", priority := some "urgent" }

def c3ReqMsg : A2AMessage :=
  { id := "q3", message_type := .request, from_agent := "selfA",
    to_agent := some "bob", payload := [("type", .pstr "echo")],
    priority := .medium, correlation_id := none, workflow_id := none,
    timestamp := "t3", ttl := 300 }

/-- An unrelated incoming heartbeat, processed while `q3` is pending. -/
def c3OtherMsg : A2AMessage :=
  { id := "n3", message_type := .heartbeat, from_agent := "bob",
    to_agent := some "selfA", payload := [("status", .pstr "online")],
    priority := .medium, correlation_id := some "zz", workflow_id := none,
    timestamp := "t3", ttl := 300 }

/-- A Response whose correlation id is no longer (never was) pending. -/
def c4Msg : A2AMessage :=
  { id := "r4", message_type := .response, from_agent := "bob",
    to_agent := some "selfA", payload := [("result", .pstr "late")],
    priority := .medium, correlation_id := some "gone", workflow_id := none,
    timestamp := "t4", ttl := 300 }

/-- A Request of a type with no registered handler. -/
def c5Msg : A2AMessage :=
  { id := "q5", message_type := .request, from_agent := "bob",
    to_agent := some "selfA", payload := [("type", .pstr "nosuch")],
    priority := .medium, correlation_id := none, workflow_id := none,
    timestamp := "t5", ttl := 300 }

/-- A Request whose payload type is a list — unhashable in Python, so the
handler-table membership test raises TypeError. -/
def c5BadMsg : A2AMessage :=
  { id := "q5b", message_type := .request, from_agent := "bob",
    to_agent := some "selfA",
    payload := [("type", .plist [.pstr "x"])],
    priority := .medium, correlation_id := none, workflow_id := none,
    timestamp := "t5b", ttl := 300 }

/-- A handler whose channel to "bob" is open but whose write fails. -/
def c6State : ProtState := { baseState "selfA" with connections := [("bob", false)] }

def c6Msg : A2AMessage :=
  { id := "m6", message_type := .notification, from_agent := "selfA",
    to_agent := some "bob", payload := [("type", .pstr "news")],
    priority := .low, correlation_id := none, workflow_id := none,
    timestamp := "t6", ttl := 300 }

def c7InfoSelf : AgentInfo :=
  { agent_id := "selfA", name := "selfA", capabilities := .plist [],
    endpoint := "", status := .online, last_heartbeat := 0,
    message_count := 0, error_count := 0 }

/-- Stale (age 5 with timeout 3) but within the 3x grace period. -/
def c7InfoB : AgentInfo := { c7InfoSelf with agent_id := "bob", name := "bob", last_heartbeat := 5 }

/-- Stale beyond the 3x grace period (age 10 > 9). -/
def c7InfoC : AgentInfo := { c7InfoSelf with agent_id := "carl", name := "carl", last_heartbeat := 0 }

def c7State : ProtState :=
  { baseState "selfA" with
    agents := [("selfA", { c7InfoSelf with last_heartbeat := 10 }),
               ("bob", c7InfoB), ("carl", c7InfoC)],
    connections := [("carl", true)] }

def c8Reg : ServiceRegistry := { services := [], capability_index := [] }

def c8Steps : List Payload :=
  [[("capability", PValue.pstr "styling")], [("capability", PValue.pstr "pricing")]]

def c9Info : AgentInfo :=
  { agent_id := "bob", name := "bob", capabilities := .plist [],
    endpoint := "", status := .online, last_heartbeat := 5,
    message_count := 0, error_count := 0 }

def c9State : ProtState := { baseState "selfA" with agents := [("bob", c9Info)] }

/-- A Request from the registered agent "bob", processed at time 9. -/
def c9ReqMsg : A2AMessage :=
  { id := "q9", message_type := .request, from_agent := "bob",
    to_agent := some "selfA", payload := [("type", .pstr "ping")],
    priority := .medium, correlation_id := none, workflow_id := none,
    timestamp := "t9", ttl := 300 }

def c9HbMsg : A2AMessage :=
  { c9ReqMsg with id := "h9", message_type := .heartbeat,
                  payload := [("status", .pstr "online")] }

def c10Wire : WireDict :=
  { id := some "m10", typ := some "request", fromA := some "alice", toA := none,
    payload := none, priority := none, correlation_id := none,
    workflow_id := none, timestamp := some "t10", ttl := none }

/-! ### Association-list lemmas -/

theorem lookupKey_upsertKey_self {κ α : Type} [DecidableEq κ]
    (l : List (κ × α)) (k : κ) (v : α) :
    lookupKey (upsertKey l k v) k = some v := by
  induction l with
  | nil => simp [upsertKey, lookupKey]
  | cons p rest ih =>
      obtain ⟨k1, v1⟩ := p
      by_cases h : k1 = k
      · simp [upsertKey, h, lookupKey]
      · simp [upsertKey, h, lookupKey, ih]

theorem lookupKey_eraseKey_self {κ α : Type} [DecidableEq κ]
    (l : List (κ × α)) (k : κ) :
    lookupKey (eraseKey l k) k = none := by
  induction l with
  | nil => rfl
  | cons p rest ih =>
      obtain ⟨k1, v1⟩ := p
      by_cases h : k1 = k
      · simp [eraseKey, h, ih]
      · simp [eraseKey, h, lookupKey, ih]

theorem lookupKey_eraseKey_ne {κ α : Type} [DecidableEq κ]
    (l : List (κ × α)) (k r : κ) (h : r ≠ k) :
    lookupKey (eraseKey l k) r = lookupKey l r := by
  induction l with
  | nil => rfl
  | cons p rest ih =>
      obtain ⟨k1, v1⟩ := p
      by_cases h1 : k1 = k
      · have h2 : ¬ (k = r) := fun hh => h hh.symm
        simp [eraseKey, h1, lookupKey, h2, ih]
      · simp [eraseKey, h1, lookupKey, ih]

theorem mem_upsertKey {κ α : Type} [DecidableEq κ]
    {l : List (κ × α)} {k : κ} {v : α} {x : κ × α}
    (h : x ∈ upsertKey l k v) : x = (k, v) ∨ x ∈ l := by
  induction l with
  | nil => simp [upsertKey] at h; simp [h]
  | cons p rest ih =>
      obtain ⟨k1, v1⟩ := p
      by_cases h1 : k1 = k
      · simp only [upsertKey, if_pos h1] at h
        rcases List.mem_cons.mp h with h2 | h2
        · exact Or.inl h2
        · exact Or.inr (List.mem_cons_of_mem _ h2)
      · simp only [upsertKey, if_neg h1] at h
        rcases List.mem_cons.mp h with h2 | h2
        · exact Or.inr (by simp [h2])
        · rcases ih h2 with h3 | h3
          · exact Or.inl h3
          · exact Or.inr (List.mem_cons_of_mem _ h3)

theorem keyNodup_mem_unique {κ α : Type} [DecidableEq κ]
    {l : List (κ × α)} (hnd : (l.map Prod.fst).Nodup)
    {k : κ} {x y : α} (hx : (k, x) ∈ l) (hy : (k, y) ∈ l) : x = y := by
  induction l with
  | nil => cases hx
  | cons p rest ih =>
      rw [List.map_cons, List.nodup_cons] at hnd
      rcases List.mem_cons.mp hx with h1 | h1 <;>
        rcases List.mem_cons.mp hy with h2 | h2
      · rw [← h1] at h2; exact congrArg Prod.snd h2.symm
      · exfalso
        exact hnd.1 (by rw [← h1]; exact List.mem_map.mpr ⟨(k, y), h2, rfl⟩)
      · exfalso
        exact hnd.1 (by rw [← h2]; exact List.mem_map.mpr ⟨(k, x), h1, rfl⟩)
      · exact ih hnd.2 h1 h2

/-! ### Serialization: enum round trips -/

theorem kindValue_parse (k : MessageType) : parseMessageType (kindValue k) = some k := by
  cases k <;> rfl

theorem priorityValue_parse (p : MessagePriority) :
    parsePriority (priorityValue p) = some p := by
  cases p <;> rfl

theorem pyOrEmpty_eq (p : Payload) : pyOrEmpty p = p := by
  cases p <;> rfl

/-- C2: serializing any envelope and deserializing the resulting flat map
restores the envelope field-for-field (the kind/priority enums round-trip
through their string values, optional fields keep their absence/presence);
and a map whose "type" or "priority" string is not a defined enum value
fails to deserialize with an error. -/
theorem serialize_roundtrip_and_unknown_enum_fails :
    (∀ e : A2AMessage, A2AMessage.from_dict (A2AMessage.to_dict e) = .ok e) ∧
    (∀ (d : WireDict) (t : String), d.typ = some t → parseMessageType t = none →
      isErr (A2AMessage.from_dict d) = true) ∧
    (∀ (d : WireDict) (p : String), d.priority = some p → parsePriority p = none →
      isErr (A2AMessage.from_dict d) = true) := by
  refine ⟨?_, ?_, ?_⟩
  · intro e
    obtain ⟨i, mt, f, toA, p, pr, cid, wid, ts, ttl⟩ := e
    simp [A2AMessage.to_dict, A2AMessage.from_dict, kindValue_parse,
          priorityValue_parse, pyOrEmpty_eq, Option.join]
  · intro d t ht hp
    simp [A2AMessage.from_dict, ht, hp, isErr]
  · intro d p hpr hbad
    rcases ht : d.typ with _ | t
    · simp [A2AMessage.from_dict, ht, isErr]
    · rcases hmt : parseMessageType t with _ | mt
      · simp [A2AMessage.from_dict, ht, hmt, isErr]
      · rcases hf : d.fromA with _ | f
        · simp [A2AMessage.from_dict, ht, hmt, hf, isErr]
        · simp [A2AMessage.from_dict, ht, hmt, hf, hpr, hbad, isErr]

/-- Witness for C2 at concrete inputs. -/
theorem serialize_roundtrip_and_unknown_enum_fails_witness :
    A2AMessage.from_dict (A2AMessage.to_dict c2Msg) = .ok c2Msg ∧
    isErr (A2AMessage.from_dict c2BadType) = true ∧
    isErr (A2AMessage.from_dict c2BadPriority) = true :=
  ⟨serialize_roundtrip_and_unknown_enum_fails.1 c2Msg,
   serialize_roundtrip_and_unknown_enum_fails.2.1 c2BadType "bogus" rfl rfl,
   serialize_roundtrip_and_unknown_enum_fails.2.2 c2BadPriority "urgent" rfl rfl⟩

/-- C10: a map carrying only the required keys (id, a defined type, from,
timestamp) deserializes successfully to an envelope with priority Medium,
empty payload, absent toAgent/correlationId/workflowId, and ttl 300. -/
theorem from_dict_defaults (i t f ts : String) (mt : MessageType)
    (h : parseMessageType t = some mt) :
    A2AMessage.from_dict
      { id := some i, typ := some t, fromA := some f, toA := none,
        payload := none, priority := none, correlation_id := none,
        workflow_id := none, timestamp := some ts, ttl := none }
      = .ok { id := i, message_type := mt, from_agent := f, to_agent := none,
              payload := [], priority := .medium, correlation_id := none,
              workflow_id := none, timestamp := ts, ttl := 300 } := by
  simp [A2AMessage.from_dict, h, parsePriority, pyOrEmpty, Option.join]

/-- Witness for C10 on a concrete minimal map. -/
theorem from_dict_defaults_witness :
    parseMessageType "request" = some MessageType.request ∧
    A2AMessage.from_dict c10Wire
      = .ok { id := "m10", message_type := .request, from_agent := "alice",
              to_agent := none, payload := [], priority := .medium,
              correlation_id := none, workflow_id := none, timestamp := "t10",
              ttl := 300 } :=
  ⟨rfl, from_dict_defaults "m10" "request" "alice" "t10" MessageType.request rfl⟩

/-! ### Frame lemmas for the send path and the dispatch branches -/

theorem sendMessage_agents (s : ProtState) (m : A2AMessage) :
    (sendMessage s m).agents = s.agents := by
  unfold sendMessage
  cases m.to_agent with
  | none => rfl
  | some a =>
      cases h : lookupKey s.connections a with
      | none => simp [h]
      | some b => cases b <;> simp [h]

theorem sendMessage_pending (s : ProtState) (m : A2AMessage) :
    (sendMessage s m).pending_requests = s.pending_requests := by
  unfold sendMessage
  cases m.to_agent with
  | none => rfl
  | some a =>
      cases h : lookupKey s.connections a with
      | none => simp [h]
      | some b => cases b <;> simp [h]

theorem sendMessage_invoked (s : ProtState) (m : A2AMessage) :
    (sendMessage s m).invoked = s.invoked := by
  unfold sendMessage
  cases m.to_agent with
  | none => rfl
  | some a =>
      cases h : lookupKey s.connections a with
      | none => simp [h]
      | some b => cases b <;> simp [h]

theorem sendMessage_sent_log (s : ProtState) (m : A2AMessage) :
    (sendMessage s m).sent_log = s.sent_log ++ [m] := by
  unfold sendMessage
  cases m.to_agent with
  | none => rfl
  | some a =>
      cases h : lookupKey s.connections a with
      | none => simp [h]
      | some b => cases b <;> simp [h]

theorem handleDiscovery_pending (s : ProtState) (m : A2AMessage)
    (f : String) (nt : Int) (ns : String) :
    (handleDiscovery s m f nt ns).pending_requests = s.pending_requests := by
  unfold handleDiscovery
  split <;> simp [sendMessage_pending]

theorem handleRequest_pending (s : ProtState) (m : A2AMessage)
    (f : String) (ns : String) :
    (handleRequest s m f ns).1.pending_requests = s.pending_requests := by
  unfold handleRequest
  dsimp only
  split
  · rfl
  · split <;> simp [sendMessage_pending]
  · simp [sendMessage_pending]

theorem handleHeartbeat_pending (s : ProtState) (m : A2AMessage) (nt : Int) :
    (handleHeartbeat s m nt).pending_requests = s.pending_requests := by
  unfold handleHeartbeat
  split <;> rfl

theorem handleNotification_pending (s : ProtState) (m : A2AMessage) :
    (handleNotification s m).1.pending_requests = s.pending_requests := by
  unfold handleNotification
  split <;> rfl

theorem handleWorkflow_pending (s : ProtState) (m : A2AMessage) (ns : String) :
    (handleWorkflow s m ns).1.pending_requests = s.pending_requests := by
  unfold handleWorkflow
  split
  · rfl
  · split
    · rfl
    · dsimp only
      split <;> rfl
  · rfl

theorem handleDiscovery_agents_mem (s : ProtState) (m : A2AMessage)
    (f : String) (nt : Int) (ns : String) {x : String × AgentInfo}
    (hx : x ∈ (handleDiscovery s m f nt ns).agents) :
    x.2.message_count = 0 ∨ x ∈ s.agents := by
  unfold handleDiscovery at hx
  split at hx
  · rw [sendMessage_agents] at hx
    rcases mem_upsertKey hx with h | h
    · exact Or.inl (by rw [h])
    · exact Or.inr h
  · rw [sendMessage_agents] at hx
    exact Or.inr hx
  · exact Or.inr hx

theorem handleRequest_agents (s : ProtState) (m : A2AMessage)
    (f : String) (ns : String) :
    (handleRequest s m f ns).1.agents = s.agents := by
  unfold handleRequest
  dsimp only
  split
  · rfl
  · split <;> simp [sendMessage_agents]
  · simp [sendMessage_agents]

theorem handleResponse_agents (s : ProtState) (m : A2AMessage) :
    (handleResponse s m).agents = s.agents := by
  unfold handleResponse
  split
  · rfl
  · split
    · rfl
    · split <;> rfl

theorem handleNotification_agents (s : ProtState) (m : A2AMessage) :
    (handleNotification s m).1.agents = s.agents := by
  unfold handleNotification
  split <;> rfl

theorem handleWorkflow_agents (s : ProtState) (m : A2AMessage) (ns : String) :
    (handleWorkflow s m ns).1.agents = s.agents := by
  unfold handleWorkflow
  split
  · rfl
  · split
    · rfl
    · dsimp only
      split <;> rfl
  · rfl

/-! ### C1, C4, C5, C6: dispatch and send-path behaviour -/

/-- C1 counterexample: an Error-kind envelope whose correlationId matches a
pending request does NOT resolve or remove the pending entry — it falls
through the dispatch switch (no ERROR branch) and is only logged, so the
claim "dispatch resolves/rejects that pending future and removes the entry
... when the envelope kind is Error" is false on the code. -/
theorem error_envelope_leaves_pending_cex :
    (processIncomingMessage c1State c1ErrMsg "f1" 0 "t1").pending_requests
        = [("r1", Fut.unresolved)] ∧
    (processIncomingMessage c1State c1ErrMsg "f1" 0 "t1").resolutions = [] :=
  ⟨rfl, rfl⟩

/-- C1 (amended): only a Response-kind envelope whose correlationId matches a
pending unresolved request resolves that future (with the envelope as its
result) and removes the entry; an Error-kind envelope is not dispatched to
the pending-request table at all — it is dropped with a warning, changing
nothing but the received counter (so the awaiting sendRequest eventually
times out instead of failing with a remote error). -/
theorem response_resolves_pending_error_dropped :
    (∀ (s : ProtState) (m : A2AMessage) (f : String) (nt : Int) (ns : String)
       (cid : String),
      m.message_type = .response → m.correlation_id = some cid →
      lookupKey s.pending_requests cid = some .unresolved →
      (processIncomingMessage s m f nt ns).pending_requests
          = eraseKey s.pending_requests cid ∧
      (processIncomingMessage s m f nt ns).resolutions
          = s.resolutions ++ [(cid, m)]) ∧
    (∀ (s : ProtState) (m : A2AMessage) (f : String) (nt : Int) (ns : String),
      m.message_type = .error →
      processIncomingMessage s m f nt ns
          = { s with stats_received := s.stats_received + 1 }) := by
  constructor
  · intro s m f nt ns cid hk hc hp
    constructor <;> simp [processIncomingMessage, hk, handleResponse, hc, hp]
  · intro s m f nt ns hk
    simp [processIncomingMessage, hk]

/-- Witness for the amended C1 at concrete inputs. -/
theorem response_resolves_pending_error_dropped_witness :
    (lookupKey c1State.pending_requests "r1" = some Fut.unresolved ∧
     (processIncomingMessage c1State c1RespMsg "f2" 0 "tt").pending_requests
        = eraseKey c1State.pending_requests "r1" ∧
     (processIncomingMessage c1State c1RespMsg "f2" 0 "tt").resolutions
        = c1State.resolutions ++ [("r1", c1RespMsg)]) ∧
    processIncomingMessage c1State c1ErrMsg "f3" 0 "tt"
      = { c1State with stats_received := c1State.stats_received + 1 } :=
  ⟨⟨rfl,
    (response_resolves_pending_error_dropped.1 c1State c1RespMsg "f2" 0 "tt" "r1"
      rfl rfl rfl).1,
    (response_resolves_pending_error_dropped.1 c1State c1RespMsg "f2" 0 "tt" "r1"
      rfl rfl rfl).2⟩,
   response_resolves_pending_error_dropped.2 c1State c1ErrMsg "f3" 0 "tt" rfl⟩

/-- C4: an incoming Response whose correlationId is absent from the
pending-request table (or is null) is a no-op: nothing raises, no pending
entry is resolved or removed, and the registry and error counter are
untouched — only the received counter is bumped. -/
theorem orphan_response_is_noop (s : ProtState) (m : A2AMessage) (f : String)
    (nt : Int) (ns : String) (hk : m.message_type = .response)
    (horphan : m.correlation_id.bind (lookupKey s.pending_requests) = none) :
    processIncomingMessage s m f nt ns
      = { s with stats_received := s.stats_received + 1 } := by
  rcases hc : m.correlation_id with _ | cid
  · simp [processIncomingMessage, hk, handleResponse, hc]
  · rw [hc] at horphan
    simp only [Option.some_bind] at horphan
    simp [processIncomingMessage, hk, handleResponse, hc, horphan]

/-- Witness for C4: a late Response with an unknown correlation id. -/
theorem orphan_response_is_noop_witness :
    c4Msg.message_type = MessageType.response ∧
    c4Msg.correlation_id.bind (lookupKey (baseState "selfA").pending_requests) = none ∧
    processIncomingMessage (baseState "selfA") c4Msg "f4" 0 "t4"
      = { baseState "selfA" with
          stats_received := (baseState "selfA").stats_received + 1 } :=
  ⟨rfl, rfl, orphan_response_is_noop (baseState "selfA") c4Msg "f4" 0 "t4" rfl rfl⟩

/-- C5 counterexample: a Request whose payload type is a list — which has no
registered handler, handlers being keyed by strings — produces NO reply at
all: the membership test `request_type in self.message_handlers` raises
TypeError on the unhashable key, the dispatcher catches it and bumps the
error counter, and nothing is handed to the send path and no handler
invoked — contradicting the claim that every no-handler Request is answered
with an Error envelope. -/
theorem unhashable_request_type_no_reply_cex :
    (processIncomingMessage (baseState "selfA") c5BadMsg "f5b" 0 "t5b").sent_log
        = [] ∧
    (processIncomingMessage (baseState "selfA") c5BadMsg "f5b" 0 "t5b").stats_errors
        = 1 ∧
    (processIncomingMessage (baseState "selfA") c5BadMsg "f5b" 0 "t5b").invoked
        = [] :=
  ⟨rfl, rfl, rfl⟩

/-- C5 (amended): a Request whose payload type passes the handler-table
membership test but matches no registered handler is answered with exactly
one envelope handed to the send path: an Error-kind envelope, correlated to
the request id, whose payload carries "No handler for request type: "
followed by the request type; no handler is invoked (so in particular no
Response-kind envelope is produced).  A Request whose payload type is
unhashable (a list or dict) instead raises TypeError at the membership
test; the dispatcher catches it, increments the error counter, and neither
sends anything nor invokes a handler. -/
theorem no_handler_single_error_reply :
    (∀ (s : ProtState) (m : A2AMessage) (f : String) (nt : Int) (ns : String),
      m.message_type = .request →
      lookupRequestHandler s.message_handlers
        (payloadGet m.payload "type") = .ok none →
      (processIncomingMessage s m f nt ns).sent_log = s.sent_log ++
        [{ id := f, message_type := .error, from_agent := s.agent_id,
           to_agent := some m.from_agent,
           payload := [("error", PValue.pstr ("No handler for request type: "
             ++ pyStrOf (payloadGet m.payload "type")))],
           priority := .medium, correlation_id := some m.id,
           workflow_id := none, timestamp := ns, ttl := 300 }] ∧
      (processIncomingMessage s m f nt ns).invoked = s.invoked) ∧
    (∀ (s : ProtState) (m : A2AMessage) (f : String) (nt : Int) (ns : String),
      m.message_type = .request →
      lookupRequestHandler s.message_handlers
        (payloadGet m.payload "type") = .error () →
      processIncomingMessage s m f nt ns
        = { s with stats_received := s.stats_received + 1,
                   stats_errors := s.stats_errors + 1 }) := by
  constructor
  · intro s m f nt ns hk hnone
    constructor <;>
      simp [processIncomingMessage, hk, handleRequest, hnone,
            sendMessage_sent_log, sendMessage_invoked]
  · intro s m f nt ns hk hraise
    simp [processIncomingMessage, hk, handleRequest, hraise]

/-- Witness for the amended C5: the hashable unregistered type "nosuch" gets
the one Error reply; the list-typed request is swallowed with errors + 1. -/
theorem no_handler_single_error_reply_witness :
    ((processIncomingMessage (baseState "selfA") c5Msg "f5" 0 "t5").sent_log
      = (baseState "selfA").sent_log ++
      [{ id := "f5", message_type := .error,
         from_agent := (baseState "selfA").agent_id,
         to_agent := some c5Msg.from_agent,
         payload := [("error", PValue.pstr ("No handler for request type: "
           ++ pyStrOf (payloadGet c5Msg.payload "type")))],
         priority := .medium, correlation_id := some c5Msg.id,
         workflow_id := none, timestamp := "t5", ttl := 300 }] ∧
     (processIncomingMessage (baseState "selfA") c5Msg "f5" 0 "t5").invoked
      = (baseState "selfA").invoked) ∧
    processIncomingMessage (baseState "selfA") c5BadMsg "f5b" 0 "t5b"
      = { baseState "selfA" with
          stats_received := (baseState "selfA").stats_received + 1,
          stats_errors := (baseState "selfA").stats_errors + 1 } :=
  ⟨no_handler_single_error_reply.1 (baseState "selfA") c5Msg "f5" 0 "t5" rfl rfl,
   no_handler_single_error_reply.2 (baseState "selfA") c5BadMsg "f5b" 0 "t5b"
     rfl rfl⟩

/-- C6 counterexample: with an open channel to "bob" whose write fails, the
send path leaves the delivery queue empty (the envelope is NOT queued for
retry, contradicting the claim); it only bumps the error counter, and
nothing reaches the wire. -/
theorem send_write_failure_not_queued_cex :
    (sendMessage c6State c6Msg).message_queue = [] ∧
    (sendMessage c6State c6Msg).stats_errors = 1 ∧
    (sendMessage c6State c6Msg).wire_log = [] :=
  ⟨rfl, rfl, rfl⟩

/-- C6 (amended): when the target has an open channel but the channel write
fails, the failure is caught (nothing is raised to the caller of the send
path) and the envelope is dropped: the global error counter is incremented
and the envelope is NOT placed on the delivery queue — queueing happens
only for targets with no open channel. -/
theorem send_write_failure_drops_envelope (s : ProtState) (m : A2AMessage)
    (a : String) (hto : m.to_agent = some a)
    (hconn : lookupKey s.connections a = some false) :
    sendMessage s m
      = { s with stats_sent := s.stats_sent + 1,
                 sent_log := s.sent_log ++ [m],
                 stats_errors := s.stats_errors + 1 } := by
  simp [sendMessage, hto, hconn]

/-- Witness for the amended C6 on the concrete failing channel. -/
theorem send_write_failure_drops_envelope_witness :
    c6Msg.to_agent = some "bob" ∧
    lookupKey c6State.connections "bob" = some false ∧
    sendMessage c6State c6Msg
      = { c6State with stats_sent := c6State.stats_sent + 1,
                       sent_log := c6State.sent_log ++ [c6Msg],
                       stats_errors := c6State.stats_errors + 1 } :=
  ⟨rfl, rfl, send_write_failure_drops_envelope c6State c6Msg "bob" rfl rfl⟩

/-! ### C3: request timeout -/

/-- Processing any envelope that is not a Response correlated to `r` leaves
an unresolved pending entry for `r` untouched. -/
theorem processIncoming_preserves_unresolved (s : ProtState) (m : A2AMessage)
    (f : String) (nt : Int) (ns : String) (r : String)
    (hm : ¬(m.message_type = .response ∧ m.correlation_id = some r))
    (h : lookupKey s.pending_requests r = some .unresolved) :
    lookupKey (processIncomingMessage s m f nt ns).pending_requests r
      = some .unresolved := by
  cases hk : m.message_type with
  | discovery => simp [processIncomingMessage, hk, handleDiscovery_pending, h]
  | heartbeat => simp [processIncomingMessage, hk, handleHeartbeat_pending, h]
  | request =>
      simp only [processIncomingMessage, hk]
      split <;> simp [handleRequest_pending, h]
  | notification =>
      simp only [processIncomingMessage, hk]
      split <;> simp [handleNotification_pending, h]
  | error => simp [processIncomingMessage, hk, h]
  | workflow =>
      simp only [processIncomingMessage, hk]
      split <;> simp [handleWorkflow_pending, h]
  | response =>
      have hcr : m.correlation_id ≠ some r := fun hc => hm ⟨hk, hc⟩
      simp only [processIncomingMessage, hk]
      unfold handleResponse
      rcases hc : m.correlation_id with _ | cid
      · simpa using h
      · have hne : r ≠ cid := fun he => hcr (by rw [hc, he])
        rcases hp : lookupKey s.pending_requests cid with _ | fut
        · simpa [hp] using h
        · cases fut <;>
            simp [hp, lookupKey_eraseKey_ne _ _ _ hne, h]

/-- C3: if the timeout elapses before any Response with the request
correlation id is processed, `send_request` fails with the timeout error and
the pending-request table no longer contains an entry for the request id. -/
theorem timeout_removes_pending (s : ProtState) (m : A2AMessage)
    (ms : List (A2AMessage × String × Int × String))
    (hms : ∀ x ∈ ms,
      ¬((x.1).message_type = .response ∧ (x.1).correlation_id = some m.id)) :
    lookupKey (processMany (sendRequestStart s m) ms).pending_requests m.id
        = some .unresolved ∧
    (sendRequestOnTimeout (processMany (sendRequestStart s m) ms) m.id).2
        = .timeoutErr ∧
    lookupKey
      (sendRequestOnTimeout (processMany (sendRequestStart s m) ms) m.id).1.pending_requests
      m.id = none := by
  have h0 : lookupKey (sendRequestStart s m).pending_requests m.id
      = some .unresolved := by
    simp [sendRequestStart, sendMessage_pending, lookupKey_upsertKey_self]
  have hmain : ∀ (l : List (A2AMessage × String × Int × String)) (st : ProtState),
      (∀ x ∈ l,
        ¬((x.1).message_type = .response ∧ (x.1).correlation_id = some m.id)) →
      lookupKey st.pending_requests m.id = some .unresolved →
      lookupKey (processMany st l).pending_requests m.id = some .unresolved := by
    intro l
    induction l with
    | nil => intro st _ h; simpa [processMany] using h
    | cons x rest ih =>
        intro st hall h
        obtain ⟨mm, ff, tt, ss⟩ := x
        simp only [processMany]
        exact ih _ (fun y hy => hall y (List.mem_cons_of_mem _ hy))
          (processIncoming_preserves_unresolved st mm ff tt ss m.id
            (hall (mm, ff, tt, ss) (List.mem_cons_self _ _)) h)
  refine ⟨hmain ms _ hms h0, rfl, ?_⟩
  simp [sendRequestOnTimeout, lookupKey_eraseKey_self]

/-- Witness for C3: a request "q3" that only ever sees an unrelated
heartbeat before its timeout fires. -/
theorem timeout_removes_pending_witness :
    lookupKey (processMany (sendRequestStart (baseState "selfA") c3ReqMsg)
        [(c3OtherMsg, "f6", 1, "t6")]).pending_requests c3ReqMsg.id
      = some Fut.unresolved ∧
    (sendRequestOnTimeout (processMany (sendRequestStart (baseState "selfA") c3ReqMsg)
        [(c3OtherMsg, "f6", 1, "t6")]) c3ReqMsg.id).2 = ReqOutcome.timeoutErr ∧
    lookupKey
      (sendRequestOnTimeout (processMany (sendRequestStart (baseState "selfA") c3ReqMsg)
        [(c3OtherMsg, "f6", 1, "t6")]) c3ReqMsg.id).1.pending_requests
      c3ReqMsg.id = none :=
  timeout_removes_pending (baseState "selfA") c3ReqMsg
    [(c3OtherMsg, "f6", 1, "t6")]
    (by intro x hx; rw [List.mem_singleton] at hx; subst hx; decide)

/-! ### C9: what refreshes a registry entry -/

/-- C9 counterexample: processing a Request from the registered agent "bob"
at time 9 leaves its registry entry exactly as it was — `last_heartbeat`
stays 5 (it is NOT set to the current time 9) and `message_count` stays 0 —
contradicting the claim that every received message updates the entry. -/
theorem request_does_not_update_registry_cex :
    (processIncomingMessage c9State c9ReqMsg "f9" 9 "t9").agents = [("bob", c9Info)] ∧
    c9Info.last_heartbeat = 5 ∧ (5 : Int) ≠ 9 ∧ c9Info.message_count = 0 :=
  ⟨rfl, rfl, by decide, rfl⟩

/-- C9 (amended): only a Heartbeat from a registered agent refreshes that
agent entry (`last_heartbeat := now`, status Online); envelopes of kind
Request, Response, Notification, Workflow or Error leave the registry
completely unchanged; and no message processing ever increments the
per-agent `message_count` (every entry after processing has count 0 or the
count of an entry already present). -/
theorem only_heartbeat_refreshes_registry :
    (∀ (s : ProtState) (m : A2AMessage) (f : String) (nt : Int) (ns : String),
      m.message_type = .heartbeat →
      (processIncomingMessage s m f nt ns).agents
        = if (lookupKey s.agents m.from_agent).isSome then
            s.agents.map (fun p => if p.1 = m.from_agent then
              (p.1, { p.2 with last_heartbeat := nt, status := .online }) else p)
          else s.agents) ∧
    (∀ (s : ProtState) (m : A2AMessage) (f : String) (nt : Int) (ns : String),
      m.message_type = .request ∨ m.message_type = .response ∨
      m.message_type = .notification ∨ m.message_type = .workflow ∨
      m.message_type = .error →
      (processIncomingMessage s m f nt ns).agents = s.agents) ∧
    (∀ (s : ProtState) (m : A2AMessage) (f : String) (nt : Int) (ns : String)
       (x : String × AgentInfo),
      x ∈ (processIncomingMessage s m f nt ns).agents →
      x.2.message_count = 0 ∨
      ∃ j, (x.1, j) ∈ s.agents ∧ j.message_count = x.2.message_count) := by
  refine ⟨?_, ?_, ?_⟩
  · intro s m f nt ns hk
    by_cases hcond : (lookupKey s.agents m.from_agent).isSome <;>
      simp [processIncomingMessage, hk, handleHeartbeat, hcond]
  · intro s m f nt ns hk
    rcases hk with hk | hk | hk | hk | hk
    · simp only [processIncomingMessage, hk]
      split <;> simp [handleRequest_agents]
    · simp [processIncomingMessage, hk, handleResponse_agents]
    · simp only [processIncomingMessage, hk]
      split <;> simp [handleNotification_agents]
    · simp only [processIncomingMessage, hk]
      split <;> simp [handleWorkflow_agents]
    · simp [processIncomingMessage, hk]
  · intro s m f nt ns x hx
    obtain ⟨a, i⟩ := x
    cases hk : m.message_type with
    | discovery =>
        simp only [processIncomingMessage, hk] at hx
        rcases handleDiscovery_agents_mem _ _ _ _ _ hx with h | h
        · exact Or.inl h
        · exact Or.inr ⟨i, by simpa using h, rfl⟩
    | heartbeat =>
        simp only [processIncomingMessage, hk] at hx
        unfold handleHeartbeat at hx
        split at hx
        · simp only [List.mem_map] at hx
          obtain ⟨p, hp, he⟩ := hx
          by_cases hfa : p.1 = m.from_agent
          · rw [if_pos hfa] at he
            refine Or.inr ⟨p.2, ?_, ?_⟩
            · have : a = p.1 := (congrArg Prod.fst he).symm
              rw [this]
              simpa using hp
            · have : i = { p.2 with last_heartbeat := nt, status := .online } :=
                (congrArg Prod.snd he).symm
              rw [this]
          · rw [if_neg hfa] at he
            exact Or.inr ⟨i, by rw [he] at hp; simpa using hp, rfl⟩
        · exact Or.inr ⟨i, by simpa using hx, rfl⟩
    | request =>
        rw [show (processIncomingMessage s m f nt ns).agents = s.agents by
          simp only [processIncomingMessage, hk]
          split <;> simp [handleRequest_agents]] at hx
        exact Or.inr ⟨i, hx, rfl⟩
    | response =>
        rw [show (processIncomingMessage s m f nt ns).agents = s.agents by
          simp [processIncomingMessage, hk, handleResponse_agents]] at hx
        exact Or.inr ⟨i, hx, rfl⟩
    | notification =>
        rw [show (processIncomingMessage s m f nt ns).agents = s.agents by
          simp only [processIncomingMessage, hk]
          split <;> simp [handleNotification_agents]] at hx
        exact Or.inr ⟨i, hx, rfl⟩
    | workflow =>
        rw [show (processIncomingMessage s m f nt ns).agents = s.agents by
          simp only [processIncomingMessage, hk]
          split <;> simp [handleWorkflow_agents]] at hx
        exact Or.inr ⟨i, hx, rfl⟩
    | error =>
        rw [show (processIncomingMessage s m f nt ns).agents = s.agents by
          simp [processIncomingMessage, hk]] at hx
        exact Or.inr ⟨i, hx, rfl⟩

/-- Witness for the amended C9 at concrete inputs. -/
theorem only_heartbeat_refreshes_registry_witness :
    ((processIncomingMessage c9State c9HbMsg "fh" 9 "th").agents
      = if (lookupKey c9State.agents c9HbMsg.from_agent).isSome then
          c9State.agents.map (fun p => if p.1 = c9HbMsg.from_agent then
            (p.1, { p.2 with last_heartbeat := 9, status := .online }) else p)
        else c9State.agents) ∧
    (processIncomingMessage c9State c9ReqMsg "f9" 9 "t9").agents = c9State.agents ∧
    (c9Info.message_count = 0 ∨
      ∃ j, ("bob", j) ∈ c9State.agents ∧ j.message_count = c9Info.message_count) :=
  ⟨only_heartbeat_refreshes_registry.1 c9State c9HbMsg "fh" 9 "th" rfl,
   only_heartbeat_refreshes_registry.2.1 c9State c9ReqMsg "f9" 9 "t9" (Or.inl rfl),
   only_heartbeat_refreshes_registry.2.2 c9State c9ReqMsg "f9" 9 "t9" ("bob", c9Info)
     (show ("bob", c9Info) ∈ [("bob", c9Info)] from List.mem_singleton.mpr rfl)⟩

/-! ### C7: cleanup pass -/

theorem mem_evictedIds {s : ProtState} {now t : Int} {a : String} :
    a ∈ evictedIds s now t
    ↔ ∃ i, (a, i) ∈ s.agents ∧ agentStale s.agent_id now t (a, i) ∧
        now - i.last_heartbeat > 3 * t := by
  constructor
  · intro h
    obtain ⟨p, hp, hpa⟩ := List.mem_map.mp h
    obtain ⟨hmem, hcond⟩ := List.mem_filter.mp hp
    rw [decide_eq_true_eq] at hcond
    obtain ⟨a1, i⟩ := p
    cases hpa
    exact ⟨i, hmem, hcond.1, hcond.2⟩
  · rintro ⟨i, hmem, hst, h3⟩
    exact List.mem_map.mpr ⟨(a, i),
      List.mem_filter.mpr ⟨hmem, by rw [decide_eq_true_eq]; exact ⟨hst, h3⟩⟩, rfl⟩

/-- C7: in one cleanup pass, every non-self registry entry whose heartbeat
age exceeds the timeout is marked Offline (and kept, while within the
3x-timeout grace period); every such entry whose age also exceeds 3x the
timeout is removed from both the registry and the connection map; and the
own entry of the local agent is never marked or evicted. -/
theorem cleanup_marks_offline_and_evicts (s : ProtState) (now t : Int)
    (hnd : (s.agents.map Prod.fst).Nodup) :
    (∀ a i, (a, i) ∈ s.agents → a ≠ s.agent_id →
      now - i.last_heartbeat > t → ¬(now - i.last_heartbeat > 3 * t) →
      (a, { i with status := AgentStatus.offline }) ∈ (cleanupPass s now t).agents) ∧
    (∀ a i, (a, i) ∈ s.agents → a ≠ s.agent_id →
      now - i.last_heartbeat > t → now - i.last_heartbeat > 3 * t →
      (∀ j, (a, j) ∉ (cleanupPass s now t).agents) ∧
      (∀ b, (a, b) ∉ (cleanupPass s now t).connections)) ∧
    (∀ i, (s.agent_id, i) ∈ s.agents →
      (s.agent_id, i) ∈ (cleanupPass s now t).agents) := by
  refine ⟨?_, ?_, ?_⟩
  · intro a i hmem hself hstale h3
    show _ ∈ (s.agents.map (markStale s.agent_id now t)).filter
      (fun p => decide (p.1 ∉ evictedIds s now t))
    refine List.mem_filter.mpr ⟨?_, ?_⟩
    · refine List.mem_map.mpr ⟨(a, i), hmem, ?_⟩
      unfold markStale
      rw [if_pos (show agentStale s.agent_id now t (a, i) from ⟨hself, hstale⟩)]
    · rw [decide_eq_true_eq]
      intro hmemE
      obtain ⟨i2, hmem2, _, h32⟩ := mem_evictedIds.mp hmemE
      have he : i2 = i := keyNodup_mem_unique hnd hmem2 hmem
      rw [he] at h32
      exact h3 h32
  · intro a i hmem hself hstale h3
    have haE : a ∈ evictedIds s now t :=
      mem_evictedIds.mpr ⟨i, hmem, ⟨hself, hstale⟩, h3⟩
    constructor
    · intro j hj
      have hpred := (List.mem_filter.mp hj).2
      rw [decide_eq_true_eq] at hpred
      exact hpred haE
    · intro b hb
      have hpred := (List.mem_filter.mp hb).2
      rw [decide_eq_true_eq] at hpred
      exact hpred haE
  · intro i hmem
    show _ ∈ (s.agents.map (markStale s.agent_id now t)).filter
      (fun p => decide (p.1 ∉ evictedIds s now t))
    refine List.mem_filter.mpr ⟨?_, ?_⟩
    · refine List.mem_map.mpr ⟨(s.agent_id, i), hmem, ?_⟩
      unfold markStale
      rw [if_neg (show ¬ agentStale s.agent_id now t (s.agent_id, i) from
        fun hc => hc.1 rfl)]
    · rw [decide_eq_true_eq]
      intro hmemE
      obtain ⟨i2, _, hst2, _⟩ := mem_evictedIds.mp hmemE
      exact hst2.1 rfl

/-- Witness for C7: with timeout 3 at time 10, "bob" (age 5) is marked
Offline but kept, "carl" (age 10 > 9) is evicted from registry and
connection map, and the self entry survives untouched. -/
theorem cleanup_marks_offline_and_evicts_witness :
    ((c7State.agents.map Prod.fst).Nodup) ∧
    ("bob", { c7InfoB with status := AgentStatus.offline })
        ∈ (cleanupPass c7State 10 3).agents ∧
    (∀ j, ("carl", j) ∉ (cleanupPass c7State 10 3).agents) ∧
    (∀ b, ("carl", b) ∉ (cleanupPass c7State 10 3).connections) ∧
    ("selfA", { c7InfoSelf with last_heartbeat := 10 })
        ∈ (cleanupPass c7State 10 3).agents :=
  ⟨by decide,
   (cleanup_marks_offline_and_evicts c7State 10 3 (by decide)).1 "bob" c7InfoB
     (List.mem_cons_of_mem _ (List.mem_cons_self _ _)) (by decide) (by decide)
     (by decide),
   ((cleanup_marks_offline_and_evicts c7State 10 3 (by decide)).2.1 "carl" c7InfoC
     (List.mem_cons_of_mem _ (List.mem_cons_of_mem _ (List.mem_cons_self _ _)))
     (by decide) (by decide) (by decide)).1,
   ((cleanup_marks_offline_and_evicts c7State 10 3 (by decide)).2.1 "carl" c7InfoC
     (List.mem_cons_of_mem _ (List.mem_cons_of_mem _ (List.mem_cons_self _ _)))
     (by decide) (by decide) (by decide)).2,
   (cleanup_marks_offline_and_evicts c7State 10 3 (by decide)).2.2
     { c7InfoSelf with last_heartbeat := 10 } (List.mem_cons_self _ _)⟩

/-! ### C8: workflow failure is terminal -/

/-- If step `m` (0-based) is the first failing step, executing from index
`i ≤ m` appends `m - i` completion records, one error record, sets status
failed, and attempts exactly the indices `i .. m`. -/
theorem execSteps_fails_from (reg : ServiceRegistry) (steps : List Payload)
    (nowS : String) (m : Nat) (stepm : Payload)
    (hstepm : steps.get? m = some stepm)
    (hfail : findBestAgent reg (payloadGet stepm "capability") = none) :
    ∀ (n i : Nat) (w : Wf), i ≤ m → m - i = n →
      (∀ j stepj, i ≤ j → j < m → steps.get? j = some stepj →
        (findBestAgent reg (payloadGet stepj "capability")).isSome) →
      (execSteps reg steps nowS i w).status = "failed" ∧
      (execSteps reg steps nowS i w).steps_completed.length
        = w.steps_completed.length + (m - i) ∧
      (execSteps reg steps nowS i w).errors.length = w.errors.length + 1 ∧
      (execSteps reg steps nowS i w).attempted
        = w.attempted ++ List.range' i (m - i + 1) := by
  intro n
  induction n with
  | zero =>
      intro i w hle heq _
      have hi : i = m := by omega
      subst hi
      rw [execSteps]
      split
      · rename_i heq2
        rw [hstepm] at heq2
        cases heq2
      · rename_i step heq2
        rw [hstepm] at heq2
        injection heq2 with he
        subst he
        dsimp only
        rw [hfail]
        refine ⟨rfl, by simp, by simp, ?_⟩
        simp [List.range'_succ]
  | succ n ihn =>
      intro i w hle heq hsucc
      have hi : i < m := by omega
      have hmlen : m < steps.length := (List.get?_eq_some.mp hstepm).1
      have hsi : steps.get? i = some (steps.get ⟨i, by omega⟩) :=
        List.get?_eq_some.mpr ⟨by omega, rfl⟩
      have hsome := hsucc i _ (Nat.le_refl i) hi hsi
      obtain ⟨ag, hag⟩ := Option.isSome_iff_exists.mp hsome
      rw [execSteps]
      split
      · rename_i heq2
        rw [hsi] at heq2
        cases heq2
      · rename_i step heq2
        rw [hsi] at heq2
        injection heq2 with he
        subst he
        dsimp only
        rw [hag]
        obtain ⟨h1, h2, h3, h4⟩ := ihn (i + 1) _ (by omega) (by omega)
          (fun j sj hij hjm hsj => hsucc j sj (by omega) hjm hsj)
        refine ⟨h1, ?_, ?_, ?_⟩
        · rw [h2]
          simp only [List.length_append, List.length_singleton]
          omega
        · rw [h3]
        · rw [h4]
          rw [List.append_assoc]
          congr 1
          have hn1 : m - i + 1 = (m - (i + 1) + 1) + 1 := by omega
          rw [hn1, List.range'_succ]
          rfl

/-- C8: in a workflow whose step k (1-based, k < N) is the first step to
fail (no agent resolves its capability while every earlier step resolves
one), execution ends with status Failed, exactly k-1 completion records,
exactly 1 error record, and only steps 1..k ever attempted — steps after k
are never reached. -/
theorem workflow_first_failure_halts (reg : ServiceRegistry)
    (steps : List Payload) (ctx : Payload) (nowS : String) (k : Nat)
    (stepk : Payload) (hk1 : 1 ≤ k) (hkN : k < steps.length)
    (hstepk : steps.get? (k - 1) = some stepk)
    (hfail : findBestAgent reg (payloadGet stepk "capability") = none)
    (hsucc : ∀ j stepj, j < k - 1 → steps.get? j = some stepj →
      (findBestAgent reg (payloadGet stepj "capability")).isSome) :
    (startWorkflowRun reg steps ctx nowS).status = "failed" ∧
    (startWorkflowRun reg steps ctx nowS).steps_completed.length = k - 1 ∧
    (startWorkflowRun reg steps ctx nowS).errors.length = 1 ∧
    (startWorkflowRun reg steps ctx nowS).attempted = List.range k := by
  obtain ⟨h1, h2, h3, h4⟩ := execSteps_fails_from reg steps nowS (k - 1) stepk
    hstepk hfail (k - 1) 0
    { status := "running", current_step := 0, steps_completed := [],
      errors := [], context := ctx, start_time := nowS, end_time := none,
      attempted := [] }
    (by omega) (by omega) (fun j sj _ hj hsj => hsucc j sj hj hsj)
  unfold startWorkflowRun
  refine ⟨h1, by simpa using h2, by simpa using h3, ?_⟩
  rw [h4, List.range_eq_range']
  simp only [List.nil_append, Nat.sub_zero]
  congr 1
  omega

/-- Witness for C8: two steps, empty registry, k = 1 — the first step fails
immediately, leaving 0 completion records, 1 error, and only step 1
attempted. -/
theorem workflow_first_failure_halts_witness :
    (startWorkflowRun c8Reg c8Steps [] "t8").status = "failed" ∧
    (startWorkflowRun c8Reg c8Steps [] "t8").steps_completed.length = 0 ∧
    (startWorkflowRun c8Reg c8Steps [] "t8").errors.length = 1 ∧
    (startWorkflowRun c8Reg c8Steps [] "t8").attempted = List.range 1 :=
  workflow_first_failure_halts c8Reg c8Steps [] "t8" 1
    [("capability", PValue.pstr "styling")] (by decide) (by decide) rfl rfl
    (fun j sj hj _ => absurd hj (by omega))

end Boutique
